import Mathlib

/-!
# Shallow embedding of the Wobbly project-file model of `vs-deinterlace`

This file embeds, in Lean 4, the parts of the repository
`Jaded-Encoding-Thaumaturgy/vs-deinterlace` that the verified claims are
about:

* the data model of `vsdeinterlace/wobbly/info.py` (`Section`, `FreezeFrame`,
  `InterlacedFade`, `OrphanField`, the parameter dataclasses);
* the project-file parser `WobblyParsed.__init__` and its private helpers
  from `vsdeinterlace/wobbly/wobbly.py`;
* the replay pipeline `WobblyParsed.apply` together with the step methods of
  `_WobblyProcessBase` (`vsdeinterlace/wobbly/base.py`);
* the per-pixel expression of `FixInterlacedFades.__call__`
  (`vsdeinterlace/combing.py`), embedded as the RPN program the source builds
  and hands to the external expression evaluator.

Modelling conventions:

* Python exceptions become `Except WError`; every `raise` site of the source
  is a `.error` with a matching constructor/message.
* JSON numbers are `ℚ` (the source reads them into Python ints/floats; the
  claims about them concern exact values, and the one float computation the
  claims touch, the fade expression, is exact-arithmetic over the guard
  `avg == 0`).
* Python `set`s of integers are `Finset ℤ`; sets of dataclass values are kept
  as lists (deduplication never matters to the claims verified here).
* Frame clips are `List Frame`; external plugins (FieldHint, the bob
  deinterlacer, the fade-fix filter) are length-preserving per-frame
  functions supplied as an `ExternalOps` record, matching the call/return
  contracts the repository documents for them.  Lazy per-frame evaluation
  errors of `std.FrameEval` (which in VapourSynth surface only when a frame
  is requested and never change `num_frames`) are modelled by
  `runtimeErrorFrame`.
* The step methods of `_WobblyProcessBase` are embedded as they stand in
  `base.py`, but the `apply` method itself reaches them through
  `self.__apply_*` lookups that Python name-mangles to undefined
  `_WobblyParsed__apply_*` attributes; `applyW` models each such statement
  as the `AttributeError` it raises (see `mangledStep`).
-/

namespace VSD

/-- Python values as they appear in `set(self.matchSeq) - {*Match.__args__}`
(`wobbly.py:118`): elements of `set(self.matchSeq)` are one-character strings,
while `Match.__args__` is a tuple of `typing.Literal[...]` *type objects*
(`types.py:15` defines `Match` as a `Union` of five `Literal` types, and
`Union.__args__` yields those `Literal` objects, not the tag strings — the
same access pattern `base.py:95` relies on).  A character never equals a
`Literal` type object. -/
inductive PyObj where
  | chr (c : Char)
  | literalType (c : Char)
deriving DecidableEq, Repr

/-- Error taxonomy of `wobbly/exceptions.py` plus the `vstools` errors the
source raises (`CustomValueError`, `CustomIndexError`, `CustomTypeError`,
`CustomKeyError`, `UnsupportedFieldBasedError`) and the plain Python
`TypeError` raised by hashing an unhashable value and `AttributeError`
raised by looking up an attribute that does not exist (the name-mangled
`self.__apply_*` lookups in `apply`). -/
inductive WError where
  | fileNotFound
  | missingValue (key : String)
  | invalidCycle
  | unsupportedFieldOrder
  | invalidMatch (offending : List PyObj)
  | invalidOrphanMatch (c : Char)
  | valueError (msg : String)
  | indexError (frame : Int)
  | typeMismatch
  | keyError
  | notFoundEnum
  | typeError (msg : String)
  | attributeError (attr : String)
deriving DecidableEq, Repr

/-- `vstools.FieldBased`: `PROGRESSIVE = 0`, `BFF = 1`, `TFF = 2`. -/
inductive FieldBased where
  | PROGRESSIVE
  | BFF
  | TFF
deriving DecidableEq, Repr

def FieldBased.toInt : FieldBased → Int
  | .PROGRESSIVE => 0
  | .BFF => 1
  | .TFF => 2

/-- `FieldBased.is_inter`: anything other than `PROGRESSIVE`. -/
def FieldBased.is_inter : FieldBased → Bool
  | .PROGRESSIVE => false
  | _ => true

/-- `vstools.FieldBased.from_param` on an integer parameter. -/
def fieldBasedFromParam : Int → Except WError FieldBased
  | 0 => .ok .PROGRESSIVE
  | 1 => .ok .BFF
  | 2 => .ok .TFF
  | _ => .error .notFoundEnum

/-- Python `int(x)` on a number: truncation toward zero. -/
def pyTrunc (q : ℚ) : Int := if 0 ≤ q then ⌊q⌋ else ⌈q⌉

/-! ## `wobbly/info.py`: the data model -/

/-- The five legal field-match tags (`types.py:15`). -/
def matchTags : List Char := ['b', 'c', 'n', 'p', 'u']

/-- The orphan subset of the match tags (`types.py:18`). -/
def orphanTags : List Char := ['b', 'n', 'p', 'u']

/-- Message of `_HoldsStartEndFrames.__post_init__` (`info.py:268`). -/
def startEndMsg : String := "The start frame must be less than or equal to the end frame!"

/-- Message of `_HoldsFrameNum.__post_init__` (`info.py:316`). -/
def frameNumMsg : String := "Frame number must be greater than or equal to 0!"

/-- `Section` (`info.py:272`): a frame range; the `presets` list is a list of
callables irrelevant to every claim verified here and is omitted. -/
structure Section where
  start_frame : Int
  end_frame : Int
deriving DecidableEq, Repr

/-- `Section(start, end, presets)`: `_HoldsStartEndFrames.__post_init__`
raises `CustomValueError` when `start_frame > end_frame`. -/
def mkSection (start_frame end_frame : Int) : Except WError Section :=
  if start_frame > end_frame then .error (.valueError startEndMsg)
  else .ok { start_frame, end_frame }

/-- `FreezeFrame` (`info.py:297`). -/
structure FreezeFrame where
  start_frame : Int
  end_frame : Int
  replacement : Int
deriving DecidableEq, Repr

/-- `FreezeFrame(start, end, replacement)` with the inherited
start/end validation. -/
def mkFreezeFrame (start_frame end_frame replacement : Int) : Except WError FreezeFrame :=
  if start_frame > end_frame then .error (.valueError startEndMsg)
  else .ok { start_frame, end_frame, replacement }

/-- `InterlacedFade` (`info.py:320`). -/
structure InterlacedFade where
  framenum : Int
  field_difference : ℚ
deriving DecidableEq, Repr

/-- `InterlacedFade(framenum, field_difference)`: `__post_init__` stores
`abs(field_difference)` and then runs the `_HoldsFrameNum` check
(`framenum < 0` raises `CustomValueError`). -/
def mkInterlacedFade (framenum : Int) (field_difference : ℚ) : Except WError InterlacedFade :=
  if framenum < 0 then .error (.valueError frameNumMsg)
  else .ok { framenum, field_difference := |field_difference| }

/-- `OrphanField` (`info.py:336`); the Python field `match` is a Lean
keyword, so it is called `matchChar` here. -/
structure OrphanField where
  framenum : Int
  matchChar : Char
deriving DecidableEq, Repr

/-- `OrphanField(framenum, match)`: `__post_init__` first rejects a match
outside `{b, n, p, u}` with `InvalidMatchError`, then runs the
`_HoldsFrameNum` check. -/
def mkOrphanField (framenum : Int) (matchChar : Char) : Except WError OrphanField :=
  if matchChar ∉ orphanTags then .error (.invalidOrphanMatch matchChar)
  else if framenum < 0 then .error (.valueError frameNumMsg)
  else .ok { framenum, matchChar }

/-- `OrphanField.deinterlace_order` (`info.py:353`). -/
def OrphanField.deinterlace_order (o : OrphanField) : FieldBased :=
  if o.matchChar = 'n' ∨ o.matchChar = 'p' then .TFF else .BFF

/-- `WobblyVideo` (`info.py:39`): the `source_filter` string is kept as the
string read from the file; the `__post_init__` resolution of that string to a
plugin on the live core is an environment lookup outside the file model. -/
structure WobblyVideo where
  file_path : String
  source_filter : String
  trims : List (Int × Int)
  framerate : ℚ
deriving DecidableEq, Repr

/-- `WobblyMeta` (`info.py:25`). -/
structure WobblyMeta where
  version : Int
  format_version : Int
  author : Option String
deriving DecidableEq, Repr

/-- `VfmParams` (`info.py:208`) reduced to the one field the parser consumes
(`order`); the remaining fields are plain pass-through numbers never read by
any code path a claim mentions.  After `__post_init__` the field holds
`bool(int(FieldBased.from_param(order)) - 1)`. -/
structure VfmParams where
  order : Bool
deriving DecidableEq, Repr

/-- `VDecParams` (`info.py:237`) reduced to the fields the parser and
`__mark_framerates` consume. -/
structure VDecParams where
  cycle : Int
deriving DecidableEq, Repr

/-! ## The project file as read from JSON (`wobbly.py` input)

`WobblyParsed.__init__` reads the file with `json.load` and pulls typed
values out of the resulting dict with `__get_val`.  `WobData` models that
dict: an `Option` field is `none` exactly when the key is absent from the
file.  The values carry the types the documented file format gives them
(§6 of the spec); the file-system part (`__check_wob_path`, reading the
bytes) is I/O outside the model. -/

/-- One record of the `"sections"` list: a dict read with
`section.get("start", 0)`; the `presets` entry is never consulted by the
embedded code paths. -/
structure SectionRecord where
  start : Option Int := none
deriving DecidableEq, Repr

/-- One record of the `"interlaced fades"` list: a JSON object of numbers,
kept as an association list so that key lookups (`ifade.get(...)`) are
modelled literally — the key the reader asks for and the key the writer
emits differ in the source. -/
abbrev FadeRecord := List (String × ℚ)

/-- `dict.get(key, default)` on a `FadeRecord`. -/
def FadeRecord.get (r : FadeRecord) (key : String) (dflt : ℚ) : ℚ :=
  (r.lookup key).getD dflt

/-- `"vfm parameters"` block, reduced to the consumed key. -/
structure VfmIn where
  order : Option Int := none
deriving DecidableEq, Repr

/-- `"vdecimate parameters"` block, reduced to the consumed key. -/
structure VDecIn where
  cycle : Option Int := none
deriving DecidableEq, Repr

/-- The decoded project file. -/
structure WobData where
  inputFile : Option String := none
  sourceFilter : Option String := none
  trim : Option (List (Int × Int)) := none
  inputFrameRate : Option (Int × Int) := none
  wobblyVersion : Option Int := none
  projectFormatVersion : Option Int := none
  generatedWith : Option String := none
  vfmParameters : Option VfmIn := none
  vdecimateParameters : Option VDecIn := none
  matchSeq : Option (List Char) := none
  combedFrames : Option (List Int) := none
  decimatedFrames : Option (List Int) := none
  sections : Option (List SectionRecord) := none
  interlacedFades : Option (List FadeRecord) := none
  frozenFrames : Option (List (Int × Int × Int)) := none
deriving DecidableEq, Repr

/-- `__get_val(key)` with the `MISSING` default: raises
`CustomValueError` naming the key when it is absent (`wobbly.py:205`). -/
def getReq (key : String) : Option α → Except WError α
  | none => .error (.missingValue key)
  | some v => .ok v

/-! ## Parser helpers (`wobbly.py` private methods) -/

/-- The set `{*Match.__args__}` of `wobbly.py:118`: five `typing.Literal`
type objects (see `PyObj`). -/
def matchArgsSet : List PyObj :=
  [.literalType 'b', .literalType 'c', .literalType 'n', .literalType 'p', .literalType 'u']

/-- `set(self.matchSeq) - {*Match.__args__}` (`wobbly.py:118`): the distinct
characters of the match sequence minus the five `Literal` type objects —
which removes nothing, since a character never equals a type object. -/
def illegal_chars (matchSeq : List Char) : List PyObj :=
  (matchSeq.map PyObj.chr).dedup.filter (fun o => o ∉ matchArgsSet)

/-- `OrphanMatch.__args__` (`wobbly.py:317`): like `Match.__args__`, a
tuple of four `typing.Literal` type objects, not tag characters. -/
def orphanMatchArgs : List PyObj :=
  [.literalType 'b', .literalType 'n', .literalType 'p', .literalType 'u']

/-- `VfmParams(**{...})` construction followed by its `__post_init__`
(`info.py:232`): `order = bool(int(FieldBased.from_param(order)) - 1)`.
The dataclass default `order=True` maps through `from_param` to `TFF`. -/
def mkVfmParams (p : VfmIn) : Except WError VfmParams := do
  let fb ← match p.order with
    | none => pure FieldBased.TFF
    | some i => fieldBasedFromParam i
  return { order := fb.toInt - 1 ≠ 0 }

/-- `VDecParams(**{...})`: dataclass default `cycle=5`. -/
def mkVDecParams (p : VDecIn) : VDecParams :=
  { cycle := p.cycle.getD 5 }

/-- The `(start, end)` pairs the set comprehension of `__set_sections`
(`wobbly.py:237-244`) passes to `Section(...)`, in list order: the end of
entry `i` is `sections_data[i+1].get("start", 0) - 1` for every entry but
the last, whose end is `len(self.matchSeq) - 1`. -/
def sectionBounds : List SectionRecord → Nat → List (Int × Int)
  | [], _ => []
  | d :: rest, matchesLen =>
    (d.start.getD 0,
      match rest with
      | [] => (matchesLen : Int) - 1
      | d1 :: _ => d1.start.getD 0 - 1) :: sectionBounds rest matchesLen

/-- `__set_sections` (`wobbly.py:232`).  The comprehension builds a
*Python set* of `Section` values, but `Section` is a plain `@dataclass`
(`info.py:272`) — unlike `FreezeFrame`/`InterlacedFade`/`OrphanField` it is
not declared with `unsafe_hash=True`, so its instances are unhashable:
inserting the first constructed `Section` into the set raises
`TypeError: unhashable type: 'Section'`.  Only an empty `sections` list
(constructing nothing) survives.  The generator constructs element 0
(running its `__post_init__` validation) before the failing insertion, so a
`CustomValueError` from the first element precedes the `TypeError`. -/
def setSections (data : List SectionRecord) (matchesLen : Nat) :
    Except WError (List Section) :=
  match sectionBounds data matchesLen with
  | [] => .ok []
  | (s, e) :: _ => do
    let _ ← mkSection s e
    .error (.typeError "unhashable type: 'Section'")

/-- The effect of a Python comprehension over fallible element
constructors: build the elements left to right, propagating the first
exception. -/
def exceptMapList (f : α → Except WError β) : List α → Except WError (List β)
  | [] => .ok []
  | a :: rest => do
    let b ← f a
    let bs ← exceptMapList f rest
    .ok (b :: bs)

/-- `__set_interlaced_fades` (`wobbly.py:246`): each record is read as
`InterlacedFade(int(ifade.get("frame", -1)), ifade.get("field_difference", 0.0))`
— note the looked-up key is `"field_difference"` with an underscore. -/
def setInterlacedFades (data : List FadeRecord) : Except WError (List InterlacedFade) :=
  exceptMapList (fun r =>
    mkInterlacedFade (pyTrunc (r.get "frame" (-1))) (r.get "field_difference" 0)) data

/-- `__set_freeze_frames` (`wobbly.py:259`): `zip` of the raw triples makes
one `FreezeFrame(*triple)` per entry. -/
def setFreezeFrames (data : List (Int × Int × Int)) : Except WError (List FreezeFrame) :=
  exceptMapList (fun t => mkFreezeFrame t.1 t.2.1 t.2.2) data

/-- Python sequence indexing `matchSeq[i]`: negative indices wrap once from
the end; anything still out of range raises `IndexError`, which
`__set_orphan_frames` re-raises as `CustomIndexError` carrying the frame. -/
def pyIndex (l : List Char) (i : Int) : Except WError Char :=
  let j := if i < 0 then i + l.length else i
  if h : 0 ≤ j ∧ j < l.length then
    .ok (l.get ⟨j.toNat, by omega⟩)
  else
    .error (.indexError i)

/-- Python sequence item assignment `matchSeq[i] = c` with the same index
semantics. -/
def pySet (l : List Char) (i : Int) (c : Char) : Except WError (List Char) :=
  let j := if i < 0 then i + l.length else i
  if 0 ≤ j ∧ j < l.length then .ok (l.set j.toNat c)
  else .error (.indexError i)

/-- One `if`/`elif` pair of `__set_orphan_frames`: construct an orphan for
the frame when its match character is one of the two tags checked there. -/
def orphanIf (f : Int) (tag1 tag2 c : Char) : Except WError (List OrphanField) :=
  if c = tag1 then (mkOrphanField f tag1).map (fun o => [o])
  else if c = tag2 then (mkOrphanField f tag2).map (fun o => [o])
  else pure []

/-- The per-section body of `__set_orphan_frames` (`wobbly.py:270-285`):
read the match at the section start (adding an `'n'`/`'p'` orphan) and at
the section end (adding a `'b'`/`'u'` orphan). -/
def orphansForSection (matchSeq : List Char) (s : Section) :
    Except WError (List OrphanField) := do
  let cStart ← pyIndex matchSeq s.start_frame
  let first ← orphanIf s.start_frame 'n' 'p' cStart
  let cEnd ← pyIndex matchSeq s.end_frame
  let second ← orphanIf s.end_frame 'b' 'u' cEnd
  return first ++ second

/-- `__set_orphan_frames` (`wobbly.py:267`) over the section list. -/
def setOrphanFrames (sections : List Section) (matchSeq : List Char) :
    Except WError (List OrphanField) :=
  (exceptMapList (orphansForSection matchSeq) sections).map List.flatten

/-- `__remove_ifades_from_combed` (`wobbly.py:289`): only when the fade set
is non-empty, subtract the fade frame numbers from the combed set.  The
decimation set is left untouched. -/
def removeIfadesFromCombed (combed : Finset ℤ) (ifades : List InterlacedFade) : Finset ℤ :=
  if ifades.isEmpty then combed
  else combed \ (ifades.map (·.framenum)).toFinset

/-! ## The parsed model and `WobblyParsed.__init__` -/

/-- The fields of the `WobblyParsed` dataclass (`wobbly.py:29-69`).  The
JSON lists `combed frames`/`decimated frames` are kept with set semantics
(`Finset ℤ`): the source declares both as sets, converts `combed_frames`
with `set(...)` in `__remove_ifades_from_combed`, and every later use is
membership/cardinality-like.  `orphan_frames` is the set the derivation
loop builds; for every file the parser accepts it is built from an empty
section list (see `setSections`), matching the source, where the dataclass
field is never initialised unless the loop body runs. -/
structure WobblyParsed where
  work_clip : WobblyVideo
  meta : WobblyMeta
  vfm_params : VfmParams
  vdecimate_params : VDecParams
  field_order : FieldBased
  matchSeq : List Char
  combed_frames : Finset ℤ
  orphan_frames : List OrphanField
  decimations : Finset ℤ
  sections : List Section
  interlaced_fades : List InterlacedFade
  freeze_frames : List FreezeFrame
deriving DecidableEq

/-- `WobblyParsed.__init__` (`wobbly.py:71-127`) on the decoded file data,
statement for statement:

* build `work_clip` (required keys `"input file"`, `"source filter"`;
  `Fraction(*[num, den])` raises on a zero denominator);
* build `meta` and the parameter blocks;
* `cycle != 5` → `InvalidCycleError`;
* derive `field_order` from `order + 1` and reject a progressive source;
* read `matchSeq`, `combed frames`, `decimated frames`;
* the (inverted) illegal-character check of `wobbly.py:118`: it raises
  `InvalidMatchError` precisely when `illegal_chars` is **empty**;
* the four derivation helpers, then `__remove_ifades_from_combed`. -/
def parseWobbly (d : WobData) : Except WError WobblyParsed := do
  let inputFile ← getReq "input file" d.inputFile
  let sourceFilter ← getReq "source filter" d.sourceFilter
  let trims := d.trim.getD []
  let fr := d.inputFrameRate.getD (30000, 1001)
  if fr.2 = 0 then
    throw (.valueError "Fraction(numerator, 0)")
  let work_clip : WobblyVideo :=
    { file_path := inputFile, source_filter := sourceFilter, trims,
      framerate := (fr.1 : ℚ) / (fr.2 : ℚ) }
  let meta : WobblyMeta :=
    { version := d.wobblyVersion.getD (-1),
      format_version := d.projectFormatVersion.getD (-1),
      author := d.generatedWith }
  let vfm_params ← mkVfmParams (d.vfmParameters.getD {})
  let vdecimate_params := mkVDecParams (d.vdecimateParameters.getD {})
  if vdecimate_params.cycle ≠ 5 then
    throw .invalidCycle
  let field_order ← fieldBasedFromParam ((if vfm_params.order then 1 else 0) + 1)
  if ¬ field_order.is_inter then
    throw .unsupportedFieldOrder
  let matchSeq := d.matchSeq.getD []
  let combed0 : Finset ℤ := (d.combedFrames.getD []).toFinset
  let decimations : Finset ℤ := (d.decimatedFrames.getD []).toFinset
  if (illegal_chars matchSeq).length = 0 then
    throw (.invalidMatch (illegal_chars matchSeq))
  let sections ← setSections (d.sections.getD [{}]) matchSeq.length
  let interlaced_fades ← setInterlacedFades (d.interlacedFades.getD [[]])
  let freeze_frames ← setFreezeFrames (d.frozenFrames.getD [])
  let orphan_frames ← setOrphanFrames sections matchSeq
  let combed_frames := removeIfadesFromCombed combed0 interlaced_fades
  return { work_clip, meta, vfm_params, vdecimate_params, field_order,
           matchSeq, combed_frames, orphan_frames, decimations, sections,
           interlaced_fades, freeze_frames }

/-! ## Clips and the replay pipeline (`base.py`, `WobblyParsed.apply`)

A clip is a list of frames; a frame is opaque pixel content plus frame
properties.  Every pre-decimation step of the pipeline is, at clip level, a
per-index frame substitution (FieldHint and `std.FrameEval`/`replace_ranges`
selections, property stamps), so each is modelled as a map over
`List.range clip.length`.  `std.FrameEval` selector errors are lazy in
VapourSynth — they surface when a frame is rendered and never change
`num_frames` — and are modelled by `runtimeErrorFrame`. -/

structure Frame where
  data : Nat
  props : List (String × Int)
deriving DecidableEq, Repr

/-- `std.SetFrameProps` on one frame: the new properties shadow older ones
(association-list lookup takes the first hit). -/
def Frame.setProps (fr : Frame) (kvs : List (String × Int)) : Frame :=
  { fr with props := kvs ++ fr.props }

/-- `std.SetFrameProps` over a clip. -/
def setFrameProps (clip : List Frame) (kvs : List (String × Int)) : List Frame :=
  clip.map (fun fr => fr.setProps kvs)

/-- Stand-in for a frame whose lazy evaluation would error when requested
(see the module docstring). -/
def runtimeErrorFrame : Frame :=
  { data := 0, props := [("_RuntimeError", 1)] }

/-- `FieldBased.apply(clip)`: stamp the `_FieldBased` property. -/
def fieldBasedApply (fb : FieldBased) (clip : List Frame) : List Frame :=
  setFrameProps clip [("_FieldBased", fb.toInt)]

/-- `FieldBased.from_video(clip)`: read the `_FieldBased` property of the
clip (frame 0), defaulting to progressive. -/
def clipFieldBased (clip : List Frame) : FieldBased :=
  match clip with
  | [] => .PROGRESSIVE
  | fr :: _ =>
    match (fr.props.lookup "_FieldBased").getD 0 with
    | 1 => .BFF
    | 2 => .TFF
    | _ => .PROGRESSIVE

/-- The external plugins the pipeline drives, as per-frame functions.  The
repository treats them as collaborators with a call/return contract only
(spec §1, §6): each returns a clip of the same length whose frame `n`
depends on the input clip and the call's parameters.

* `fieldHintFrame clip matchSeq tff n`: frame `n` of
  `clip.fh.FieldHint(None, tff, ''.join(matches))`;
* `bobFrame clip tff k`: frame `k` of the double-rate output of
  `core.resize.Bob(clip, tff=tff)` (`2 * clip.length` frames);
* `fifFrame clip n`: frame `n` of
  `fix_interlaced_fades(clip, colors=0, planes=0)` (the pixel-level
  expression of that filter is embedded separately below). -/
structure ExternalOps where
  fieldHintFrame : List Frame → List Char → FieldBased → Nat → Frame
  bobFrame : List Frame → Bool → Nat → Frame
  fifFrame : List Frame → Nat → Frame

/-- `vstools.replace_ranges(a, b, frames)` for a plain frame list: frame `n`
comes from `b` when `n` is listed, else from `a`. -/
def replaceRanges (a b : List Frame) (frames : List Int) : List Frame :=
  (List.range a.length).map (fun (n : Nat) =>
    if (n : Int) ∈ frames then b.getD n runtimeErrorFrame
    else a.getD n runtimeErrorFrame)

/-- `_apply_fieldmatches` (`base.py:28`): FieldHint the clip, then
`std.FrameEval` selects, per frame `n`, the hinted clip stamped with
`wobbly_match = matches[n]` (`match_clips.get(matches[n])`; an index past
the end of the match list has no clip to select — a lazy error).  The `tff`
argument is taken from the clip (`FieldBased.from_param_or_video`). -/
def applyFieldmatches (ops : ExternalOps) (clip : List Frame) (matchSeq : List Char) :
    List Frame :=
  let tff := clipFieldBased clip
  let hinted := (List.range clip.length).map (ops.fieldHintFrame clip matchSeq tff)
  (List.range clip.length).map (fun n =>
    match matchSeq.get? n with
    | some m => (hinted.getD n runtimeErrorFrame).setProps [("wobbly_match", (m.toNat : Int))]
    | none => runtimeErrorFrame)

/-- The `std.FreezeFrames` argument validation (`base.py:67-70` wraps a
`vs.Error` into `CustomValueError "Could not freeze frames!"`): every range
must satisfy `0 ≤ first ≤ last < N` with an in-range replacement. -/
def freezeRangesValid (n : Nat) (freezes : List FreezeFrame) : Bool :=
  freezes.all (fun fz =>
    0 ≤ fz.start_frame ∧ fz.start_frame ≤ fz.end_frame ∧ fz.end_frame < (n : Int)
      ∧ 0 ≤ fz.replacement ∧ fz.replacement < (n : Int))

/-- The freeze metadata stamped on a range's start frame (`base.py:59-65`);
for duplicate start frames the dict update keeps the last write. -/
def freezePropsAt (freezes : List FreezeFrame) (n : Int) : Option FreezeFrame :=
  (freezes.filter (fun fz => fz.start_frame = n)).getLast?

/-- `_apply_freezeframes` (`base.py:45`): run `std.FreezeFrames` (modelled
by its validation), then `fclip.std.FrameEval(partial(_set_props, clip=clip))`.
`_set_props` returns (a property-stamped copy of) the *unfrozen* `clip`
argument bound by `partial`, and `FrameEval` takes frame `n` of the clip the
callback returns — so every output frame's content comes from the original
clip, with the freeze metadata stamped on range-start frames; the frozen
content of `fclip` is discarded (a slip in the source, reproduced here). -/
def applyFreezeframes (clip : List Frame) (freezes : List FreezeFrame) :
    Except WError (List Frame) :=
  if ¬ freezeRangesValid clip.length freezes then
    .error (.valueError "Could not freeze frames!")
  else
    .ok ((List.range clip.length).map (fun (n : Nat) =>
      match freezePropsAt freezes (n : Int) with
      | some fz =>
        (clip.getD n runtimeErrorFrame).setProps
          [("wobbly_freeze_start", fz.start_frame),
           ("wobbly_freeze_end", fz.end_frame),
           ("wobbly_freeze_replacement", fz.replacement)]
      | none => clip.getD n runtimeErrorFrame))

/-- `__mark_framerates` (`wobbly.py:334`), statement for statement:
`framerates` runs `i` over `range(cycle, 0, -1)`; each fps clip stamps the
cycle fps and duration properties (`std.AssumeFPS` itself only sets clip
metadata the per-frame properties then override); `split_decimations`
chops the decimation set into cycles up to `ceil((max+1)/cycle)`; the
selector uses `ceil(n / cycle)` (as in the source) and `std.FrameEval`
picks `fps_clips[indices[n]]` per frame. -/
def markFramerates (w : WobblyParsed) (clip : List Frame) : List Frame :=
  let cycle := w.vdecimate_params.cycle
  let den : Int := w.work_clip.framerate.den
  let framerates : List ℚ :=
    ((List.range cycle.toNat).map
      (fun k => (w.work_clip.framerate.num : ℚ) / (cycle : ℚ) * ((k : ℚ) + 1))).reverse
  let fpsClips : List (List Frame) :=
    framerates.map (fun fps =>
      setFrameProps clip
        [("wobbly_cycle_fps", ⌊fps / 1000⌋),
         ("_DurationNum", pyTrunc fps),
         ("_DurationDen", den)])
  let maxDec : Int := w.decimations.max.unbot' 0
  let nCycles : Nat := (⌈((maxDec + 1 : Int) : ℚ) / (cycle : ℚ)⌉).toNat
  let splitDecimations : List (List Int) :=
    (List.range nCycles).map (fun i =>
      ((List.range cycle.toNat).map (fun j => (i : Int) * cycle + (j : Int))).filter
        (fun j => j ∈ w.decimations))
  let indices : Nat → Nat := fun n =>
    let sdIdx := (⌈(n : ℚ) / (cycle : ℚ)⌉).toNat
    if sdIdx ≥ splitDecimations.length then 0
    else (splitDecimations.getD sdIdx []).length
  (List.range clip.length).map (fun n =>
    match fpsClips.get? (indices n) with
    | some fc => fc.getD n runtimeErrorFrame
    | none => runtimeErrorFrame)

/-- `_apply_interlaced_fades` (`base.py:124`): `replace_ranges` between the
clip stamped `wobbly_fif=False` and the fade-fixed clip stamped
`wobbly_fif=True`, on the fade frame numbers. -/
def applyInterlacedFades (ops : ExternalOps) (clip : List Frame)
    (ifades : List InterlacedFade) : List Frame :=
  replaceRanges
    (setFrameProps clip [("wobbly_fif", 0)])
    (setFrameProps ((List.range clip.length).map (ops.fifFrame clip)) [("wobbly_fif", 1)])
    (ifades.map (·.framenum))

/-- `_deinterlace_orphans` (`base.py:77`): bob the clip both ways, slice out
every second frame starting at `is_tff`, replace the n/p frames with the
opposite-order bob and the b/u frames with the same-order bob, then stamp
`wobbly_orphan_deinterlace` on every processed frame.  An orphan whose
match is outside `{b, n, p, u}` hits the `KeyError` → `CustomKeyError`
path. -/
def deinterlaceOrphans (ops : ExternalOps) (clip : List Frame)
    (orphans : List OrphanField) : Except WError (List Frame) :=
  if ¬ orphans.all (fun o => o.matchChar ∈ orphanTags) then
    .error .keyError
  else
    let isTff := clipFieldBased clip = .TFF
    let offset := if isTff then 1 else 0
    let deintNp := (List.range clip.length).map
      (fun n => ops.bobFrame clip (!isTff) (offset + 2 * n))
    let deintBu := (List.range clip.length).map
      (fun n => ops.bobFrame clip isTff (offset + 2 * n))
    let npFrames := (orphans.filter (fun o => o.matchChar = 'n' ∨ o.matchChar = 'p')).map (·.framenum)
    let buFrames := (orphans.filter (fun o => o.matchChar = 'b' ∨ o.matchChar = 'u')).map (·.framenum)
    let out1 := replaceRanges clip deintNp npFrames
    let out2 := replaceRanges out1 deintBu buFrames
    .ok (replaceRanges out2 (setFrameProps out2 [("wobbly_orphan_deinterlace", 1)])
      (npFrames ++ buFrames))

/-- `_apply_combed_markers` (`base.py:115`): `wobbly_combed=0` everywhere,
`wobbly_combed=1` on the combed frames. -/
def applyCombedMarkers (clip : List Frame) (combed : Finset ℤ) : List Frame :=
  replaceRanges
    (setFrameProps clip [("wobbly_combed", 0)])
    (setFrameProps clip [("wobbly_combed", 1)])
    (combed.sort (· ≤ ·))

/-- `std.DeleteFrames(list(decimations))`: drop every frame whose index is
in the set. -/
def deleteFramesFrom : List Frame → Finset ℤ → Nat → List Frame
  | [], _, _ => []
  | fr :: rest, idxs, k =>
    if (k : Int) ∈ idxs then deleteFramesFrom rest idxs (k + 1)
    else fr :: deleteFramesFrom rest idxs (k + 1)

def deleteFrames (clip : List Frame) (idxs : Finset ℤ) : List Frame :=
  deleteFramesFrom clip idxs 0

/-- The `orphan_handling` argument of `apply`.  The source annotates it
`bool | OrphanMatch | Sequence[OrphanMatch]`; a single match tag (a
one-character string) iterates as a one-element sequence, so the sequence
constructor covers both. -/
inductive OrphanArg where
  | bool (b : Bool)
  | seq (l : List Char)
deriving DecidableEq, Repr

/-- `__get_orphans_to_process` (`wobbly.py:295`), line for line: a falsy
argument (`False` or an empty sequence) selects nothing; a truthy bool sets
`matches_check = orphan_matches` — the `OrphanMatch.__args__` tuple, whose
elements are `typing.Literal` type objects that no match character ever
equals, so the final filter `orphan.match in matches_check` keeps nothing;
otherwise, if *any* element of the sequence is an orphan tag the sequence
itself becomes the filter, else `CustomTypeError` is raised.  (The
`process is orphan_matches` identity test can only fire when the caller
passes the `OrphanMatch.__args__` tuple object itself, which the annotated
argument space excludes.) -/
def getOrphansToProcess (w : WobblyParsed) (process : OrphanArg) :
    Except WError (List OrphanField) :=
  match process with
  | .bool b =>
    if !b then .ok []
    else .ok (w.orphan_frames.filter (fun o => PyObj.chr o.matchChar ∈ orphanMatchArgs))
  | .seq l =>
    if l.isEmpty then .ok []
    else if l.any (fun m => m ∈ orphanTags) then
      .ok (w.orphan_frames.filter (fun o => o.matchChar ∈ l))
    else .error .typeMismatch

/-- `__force_c_match` (`wobbly.py:213`) at its call site in `apply`, where
`frames` is the orphan selection: assign `matches[framenum] = 'c'` for each
orphan, with Python index semantics. -/
def forceCMatch (matchSeq : List Char) : List OrphanField → Except WError (List Char)
  | [] => .ok matchSeq
  | o :: rest => do
    let m ← pySet matchSeq o.framenum 'c'
    forceCMatch m rest

/-- One guarded step statement of `apply` whose method lookup is broken:
`wobbly.py:168/171/177/180/183` call `self.__apply_fieldmatches`,
`self.__apply_freezeframes`, `self.__apply_interlaced_fades`,
`self.__deinterlace_orphans` and `self.__apply_combed_markers` from inside
`class WobblyParsed`, so Python name-mangles each lookup to
`self._WobblyParsed__apply_*` — attributes that do not exist anywhere
(`_WobblyProcessBase` defines the single-underscore `_apply_*` methods
instead).  When the statement guard is truthy the attribute lookup
therefore raises `AttributeError` before any call happens; when the guard
is falsy the statement is skipped and the clip passes through. -/
def mangledStep (attr : String) (guard : Bool) (clip : List Frame) :
    Except WError (List Frame) :=
  if guard then .error (.attributeError attr) else .ok clip

/-- `WobblyParsed.apply` (`wobbly.py:129-190`), statement for statement on
a caller-supplied clip (`clip=None` re-indexes the input file — an I/O path
outside the model).  `FunctionUtil`/`return_clip` only normalise the frame
format and keep the frame count; they are modelled as the identity.  The
private lookups `self.__get_orphans_to_process`, `self.__force_c_match` and
`self.__mark_framerates` mangle to names defined in `WobblyParsed` itself
and resolve; the five step methods inherited from `_WobblyProcessBase` are
looked up under mangled names that do not exist (see `mangledStep`), so
each of those statements raises `AttributeError` whenever its guard is
truthy.  The `ops` argument carries the external plugins the intended
steps would drive; the broken lookups never reach them. -/
def applyW (ops : ExternalOps) (w : WobblyParsed) (clip : List Frame)
    (tff : Option FieldBased) (orphan_handling : OrphanArg) :
    Except WError (List Frame) := do
  let wclip := fieldBasedApply (tff.getD w.field_order) clip
  let orphanProc ← getOrphansToProcess w orphan_handling
  let matchesToProc ← forceCMatch w.matchSeq orphanProc
  let wclip ← mangledStep "_WobblyParsed__apply_fieldmatches"
    (!matchesToProc.isEmpty) wclip
  let wclip ← mangledStep "_WobblyParsed__apply_freezeframes"
    (!w.freeze_frames.isEmpty) wclip
  let wclip := if w.decimations = ∅ then wclip else markFramerates w wclip
  let wclip ← mangledStep "_WobblyParsed__apply_interlaced_fades"
    (!w.interlaced_fades.isEmpty) wclip
  let wclip ← mangledStep "_WobblyParsed__deinterlace_orphans"
    (!orphanProc.isEmpty) wclip
  let wclip ← mangledStep "_WobblyParsed__apply_combed_markers"
    (decide (w.combed_frames ≠ ∅)) wclip
  let wclip := if w.decimations = ∅ then wclip else deleteFrames wclip w.decimations
  let wclip := fieldBasedApply .PROGRESSIVE wclip
  return wclip

/-- The statements of `apply` before the decimation line (`wobbly.py:185`),
in source order — the first eight steps of spec §4.2 as the code actually
has them, broken lookups included. -/
def preDecimationSteps (ops : ExternalOps) (w : WobblyParsed) (clip : List Frame)
    (tff : Option FieldBased) (orphan_handling : OrphanArg) :
    Except WError (List Frame) := do
  let wclip := fieldBasedApply (tff.getD w.field_order) clip
  let orphanProc ← getOrphansToProcess w orphan_handling
  let matchesToProc ← forceCMatch w.matchSeq orphanProc
  let wclip ← mangledStep "_WobblyParsed__apply_fieldmatches"
    (!matchesToProc.isEmpty) wclip
  let wclip ← mangledStep "_WobblyParsed__apply_freezeframes"
    (!w.freeze_frames.isEmpty) wclip
  let wclip := if w.decimations = ∅ then wclip else markFramerates w wclip
  let wclip ← mangledStep "_WobblyParsed__apply_interlaced_fades"
    (!w.interlaced_fades.isEmpty) wclip
  let wclip ← mangledStep "_WobblyParsed__deinterlace_orphans"
    (!orphanProc.isEmpty) wclip
  let wclip ← mangledStep "_WobblyParsed__apply_combed_markers"
    (decide (w.combed_frames ≠ ∅)) wclip
  return wclip

/-! ## `FixInterlacedFades.__call__` (`combing.py:110-167`)

The filter builds (a) a `PropExpr` that attaches, to every frame, the
baseline-subtracted plane averages of the frame's top and bottom fields
(`f'{c}.P{i}Average {color} -'` with `y` = the top-field clip and `z` = the
bottom-field clip), and (b) a per-pixel RPN expression handed to the
external evaluator:

`Y 2 % x.fbAvg x.ftAvg ? AVG!  AVG@ 0 = x x color - x.ftAvg x.fbAvg MODE
AVG@ / * ? color +`

where `MODE` is `+ 2 /` for `Average`, `min` for `Darken`, `max` for
`Brighten`.  The expression is embedded as the token list the format string
produces, together with a small stack evaluator with the evaluator's
semantics (`?` tests `cond > 0`; `=` pushes 1/0; `AVG!`/`AVG@` store/load
the named variable).  Arithmetic is over `ℚ`; the eagerly computed division
`AVG@ /` in the branch not taken (where the real evaluator produces an
IEEE infinity/NaN that the guard then discards) is harmlessly `0` here. -/

inductive FifMode where
  | Average
  | Darken
  | Brighten
deriving DecidableEq, Repr

inductive ExprTok where
  | num (q : ℚ)
  | varX
  | coordY
  | propFtAvg
  | propFbAvg
  | opMod
  | opAdd
  | opSub
  | opMul
  | opDiv
  | opEq
  | opTern
  | opMin
  | opMax
  | storeAvg
  | loadAvg
deriving DecidableEq, Repr

/-- C `fmod`, the evaluator's `%`: remainder truncated toward zero. -/
def fmodQ (a b : ℚ) : ℚ := a - b * (pyTrunc (a / b) : ℚ)

/-- The per-pixel inputs of the expression: the pixel `x`, the row
coordinate `Y`, and the two field-average properties attached by
`PropExpr`. -/
structure ExprEnv where
  x : ℚ
  yCoord : ℕ
  ftAvg : ℚ
  fbAvg : ℚ
deriving DecidableEq, Repr

def stepTok (env : ExprEnv) (st : List ℚ × ℚ) (t : ExprTok) : Option (List ℚ × ℚ) :=
  match t, st with
  | .num q, (s, v) => some (q :: s, v)
  | .varX, (s, v) => some (env.x :: s, v)
  | .coordY, (s, v) => some ((env.yCoord : ℚ) :: s, v)
  | .propFtAvg, (s, v) => some (env.ftAvg :: s, v)
  | .propFbAvg, (s, v) => some (env.fbAvg :: s, v)
  | .opMod, (b :: a :: s, v) => some (fmodQ a b :: s, v)
  | .opAdd, (b :: a :: s, v) => some ((a + b) :: s, v)
  | .opSub, (b :: a :: s, v) => some ((a - b) :: s, v)
  | .opMul, (b :: a :: s, v) => some ((a * b) :: s, v)
  | .opDiv, (b :: a :: s, v) => some ((a / b) :: s, v)
  | .opEq, (b :: a :: s, v) => some ((if a = b then (1 : ℚ) else 0) :: s, v)
  | .opMin, (b :: a :: s, v) => some (min a b :: s, v)
  | .opMax, (b :: a :: s, v) => some (max a b :: s, v)
  | .opTern, (f :: tv :: c :: s, v) => some ((if c > 0 then tv else f) :: s, v)
  | .storeAvg, (a :: s, _) => some (s, a)
  | .loadAvg, (s, v) => some (v :: s, v)
  | _, _ => none

/-- Run the token list left to right (a malformed program that underflows
the stack yields `none`). -/
def runToks (env : ExprEnv) : List ExprTok → (List ℚ × ℚ) → Option (List ℚ × ℚ)
  | [], st => some st
  | t :: ts, st =>
    match stepTok env st t with
    | some st2 => runToks env ts st2
    | none => none

/-- Run the expression; the result is the top of the final stack. -/
def evalExpr (env : ExprEnv) (toks : List ExprTok) : Option ℚ :=
  match runToks env toks ([], 0) with
  | some (r :: _, _) => some r
  | _ => none

/-- The `expr_mode` insertion of `combing.py:157`. -/
def exprModeToks : FifMode → List ExprTok
  | .Average => [.opAdd, .num 2, .opDiv]
  | .Darken => [.opMin]
  | .Brighten => [.opMax]

/-- The full token list of the `norm_expr` format string
(`combing.py:159-165`) with `{color}` and `{expr_mode}` substituted. -/
def fifTokens (mode : FifMode) (color : ℚ) : List ExprTok :=
  [.coordY, .num 2, .opMod, .propFbAvg, .propFtAvg, .opTern, .storeAvg,
   .loadAvg, .num 0, .opEq, .varX, .varX, .num color, .opSub,
   .propFtAvg, .propFbAvg] ++ exprModeToks mode ++
  [.loadAvg, .opDiv, .opMul, .opTern, .num color, .opAdd]

/-- The `PropExpr` of `combing.py:149-155`: the attached properties are the
raw same-parity field averages minus the baseline color. -/
def fifEnv (x : ℚ) (yCoord : ℕ) (ftRaw fbRaw color : ℚ) : ExprEnv :=
  { x, yCoord, ftAvg := ftRaw - color, fbAvg := fbRaw - color }

/-- The whole per-pixel filter: evaluate the expression on the
`PropExpr`-prepared frame. -/
def fifPixel (mode : FifMode) (color x : ℚ) (yCoord : ℕ) (ftRaw fbRaw : ℚ) : Option ℚ :=
  evalExpr (fifEnv x yCoord ftRaw fbRaw color) (fifTokens mode color)

/-- The combination the claim calls `far_avg`: the `expr_mode` combination
of the two baseline-subtracted field averages. -/
def fifCombine : FifMode → ℚ → ℚ → ℚ
  | .Average, a, b => (a + b) / 2
  | .Darken, a, b => min a b
  | .Brighten, a, b => max a b

/-- The own-parity selected average `AVG` of the expression: even rows take
the top-field average, odd rows the bottom-field average (both
baseline-subtracted). -/
def fifOwnAvg (yCoord : ℕ) (ftRaw fbRaw color : ℚ) : ℚ :=
  (if yCoord % 2 = 1 then fbRaw else ftRaw) - color

/-! ## `Wibbly._get_fades` (`wibbly.py:384-390`)

The metrics-gathering side of the same repository writes the fade records
consumed by the parser above; note the key it emits is `"field difference"`
— with a space, as the documented file format (spec §6) lists it. -/

def wibblyGetFades (fades : List (Int × ℚ)) : List FadeRecord :=
  fades.map (fun fr => [("frame", (fr.1 : ℚ)), ("field difference", fr.2)])

/-! ## Concrete project files and clips used as test inputs -/

/-- A minimal well-formed project file: all required keys present, default
frame rate and parameter blocks, a three-tag match string, and empty
derived lists.  (The section list must be empty for parsing to get past
`setSections`; see there.) -/
def wobBase : WobData :=
  { inputFile := some "in.mkv", sourceFilter := some "lsmas.LWLibavSource",
    matchSeq := some ['c', 'c', 'c'], combedFrames := some [],
    decimatedFrames := some [], sections := some [],
    interlacedFades := some [], frozenFrames := some [] }

/-- `wobBase` with an illegal `'x'` in the match string. -/
def wobIllegalMatch : WobData := { wobBase with matchSeq := some ['c', 'c', 'x'] }

/-- `wobBase` with an empty match string (every character of which is,
vacuously, a legal tag). -/
def wobEmptyMatch : WobData := { wobBase with matchSeq := some [] }

/-- `wobBase` with the fade list Wibbly writes for one fade
`(frame 3, field difference 1/2)`. -/
def wobFadeHalf : WobData :=
  { wobBase with interlacedFades := some (wibblyGetFades [(3, 1/2)]) }

/-- `wobBase` with `vdecimate parameters = {cycle: 4}`. -/
def wobCycle4 : WobData :=
  { wobBase with vdecimateParameters := some { cycle := some 4 } }

/-- A file whose combed, decimated and fade sets overlap: combed frames
`{0, 1, 2}`, decimated frames `{0, 5}`, one fade on frame `0`. -/
def wobOverlap : WobData :=
  { wobBase with
    combedFrames := some [0, 1, 2]
    decimatedFrames := some [0, 5]
    interlacedFades := some [[("frame", 0), ("field_difference", 2)]] }

/-- A 30-frame file with the section starts of the spec scenario
`[{start: 0}, {start: 10}, {start: 25}]`. -/
def wobSections30 : WobData :=
  { wobBase with
    matchSeq := some (List.replicate 30 'c')
    sections := some [{ start := some 0 }, { start := some 10 }, { start := some 25 }] }

/-- `wobBase` with one fade record lacking the `"frame"` key. -/
def wobMissingFrame : WobData := { wobBase with interlacedFades := some [[]] }

/-- `wobBase` with frame 1 decimated. -/
def wobDecimate1 : WobData := { wobBase with decimatedFrames := some [1] }

/-- Fallback value for extracting the payload of a known-`ok` parse. -/
def dummyParsed : WobblyParsed :=
  { work_clip := { file_path := "", source_filter := "", trims := [], framerate := 0 },
    meta := { version := -1, format_version := -1, author := none },
    vfm_params := { order := true },
    vdecimate_params := { cycle := 5 },
    field_order := .TFF,
    matchSeq := [],
    combed_frames := ∅,
    orphan_frames := [],
    decimations := ∅,
    sections := [],
    interlaced_fades := [],
    freeze_frames := [] }

/-- The parsed model of `wobOverlap`. -/
def parsedOverlap : WobblyParsed := (parseWobbly wobOverlap).toOption.getD dummyParsed

/-- The parsed model of `wobDecimate1`. -/
def parsedDecimate1 : WobblyParsed := (parseWobbly wobDecimate1).toOption.getD dummyParsed

/-- A parsed-model-shaped value with one orphan field, for exercising the
orphan selection directly. -/
def modelWithOrphan : WobblyParsed :=
  { dummyParsed with matchSeq := ['b', 'c', 'c'], orphan_frames := [{ framenum := 0, matchChar := 'b' }] }

/-- Concrete external plugins for running the pipeline on test clips: each
returns a recognisable transformation of the requested source frame. -/
def trivialOps : ExternalOps :=
  { fieldHintFrame := fun clip _ _ n => clip.getD n runtimeErrorFrame,
    bobFrame := fun clip _ k => clip.getD (k / 2) runtimeErrorFrame,
    fifFrame := fun clip n => clip.getD n runtimeErrorFrame }

/-- A three-frame test clip. -/
def clip3 : List Frame := [⟨10, []⟩, ⟨11, []⟩, ⟨12, []⟩]

/-- The fade constructed from `(3, 1)`. -/
def fadeWit : InterlacedFade := (mkInterlacedFade 3 1).toOption.getD { framenum := 0, field_difference := 0 }

/-- The orphan field constructed from `(2, 'b')`. -/
def orphanWit : OrphanField := (mkOrphanField 2 'b').toOption.getD { framenum := 0, matchChar := 'b' }

/-! ## Theorems -/

theorem ebind_ok (a : α) (f : α → Except WError β) : (Except.ok a >>= f) = f a := rfl

theorem ebind_err (e : WError) (f : α → Except WError β) :
    ((Except.error e : Except WError α) >>= f) = Except.error e := rfl

theorem ethrow (e : WError) : (throw e : Except WError α) = Except.error e := rfl

theorem epure (a : α) : (pure a : Except WError α) = Except.ok a := rfl

theorem emap_ok (f : α → β) (a : α) :
    (Except.ok a : Except WError α).map f = Except.ok (f a) := rfl

theorem emap_err (f : α → β) (e : WError) :
    (Except.error e : Except WError α).map f = Except.error e := rfl

theorem fmodQ_even (k : ℕ) : fmodQ ((2 * k : ℕ) : ℚ) 2 = 0 := by
  have h : ((2 * k : ℕ) : ℚ) / 2 = (k : ℚ) := by push_cast; ring
  have h2 : pyTrunc ((k : ℚ)) = (k : ℤ) := by
    rw [pyTrunc, if_pos (by positivity)]
    exact Int.floor_natCast k
  rw [fmodQ, h, h2]
  push_cast
  ring

theorem fmodQ_odd (k : ℕ) : fmodQ ((2 * k + 1 : ℕ) : ℚ) 2 = 1 := by
  have h : ((2 * k + 1 : ℕ) : ℚ) / 2 = (k : ℚ) + 1 / 2 := by push_cast; ring
  have hfl : ⌊(k : ℚ) + 1 / 2⌋ = (k : ℤ) := by
    rw [Int.floor_eq_iff]
    constructor <;> push_cast <;> linarith
  have h2 : pyTrunc ((k : ℚ) + 1 / 2) = (k : ℤ) := by
    rw [pyTrunc, if_pos (by positivity)]
    exact hfl
  rw [fmodQ, h, h2]
  push_cast
  ring

theorem ite_one_zero_pos (P : Prop) [Decidable P] (a b : ℚ) :
    (if ((if P then (1 : ℚ) else 0) > 0) then a else b) = if P then a else b := by
  by_cases h : P <;> simp [h]

/-- Symbolic run of the fade-fix expression: the token program of
`combing.py:159-165` computes exactly the piecewise formula — own-parity
average selected by row parity, the `AVG == 0` guard yielding the input
pixel **plus the baseline**, the other branch scaling `(x - color)` by the
mode combination over the selected average, with the trailing `color +`
applying to both branches. -/
theorem fifPixel_eq (mode : FifMode) (color x ft fb : ℚ) (row : ℕ) :
    fifPixel mode color x row ft fb =
      some (if fifOwnAvg row ft fb color = 0 then x + color
            else (x - color) * (fifCombine mode (ft - color) (fb - color)
                    / fifOwnAvg row ft fb color) + color) := by
  have hmod : ∀ a b : ℚ, (if fmodQ (row : ℚ) 2 > 0 then a else b)
      = if row % 2 = 1 then a else b := by
    intro a b
    rcases Nat.even_or_odd row with ⟨k, hk⟩ | ⟨k, hk⟩
    · subst hk
      rw [show k + k = 2 * k from by ring, fmodQ_even]
      have : 2 * k % 2 = 0 := Nat.mul_mod_right 2 k
      simp [this]
    · subst hk
      rw [fmodQ_odd]
      have : (2 * k + 1) % 2 = 1 := by omega
      simp [this]
  have hown : fifOwnAvg row ft fb color
      = if row % 2 = 1 then fb - color else ft - color := by
    rw [fifOwnAvg, apply_ite (fun t : ℚ => t - color)]
  cases mode <;>
  · simp only [fifPixel, evalExpr, fifTokens, exprModeToks, List.cons_append,
      List.nil_append, runToks, stepTok, fifEnv]
    rw [hmod, ite_one_zero_pos, hown]
    simp only [fifCombine]
    split <;> rw [apply_ite (fun t : ℚ => t + color)]

/-! ### Inversion and error-classification helpers for the parser -/

theorem parse_ok_inv (d : WobData) (w : WobblyParsed) (h : parseWobbly d = .ok w) :
    ∃ fades, setInterlacedFades (d.interlacedFades.getD [[]]) = .ok fades
      ∧ w.interlaced_fades = fades
      ∧ w.combed_frames = removeIfadesFromCombed (d.combedFrames.getD []).toFinset fades
      ∧ w.decimations = (d.decimatedFrames.getD []).toFinset
      ∧ w.matchSeq = d.matchSeq.getD []
      ∧ w.matchSeq ≠ [] := by
  unfold parseWobbly at h
  cases h1 : getReq "input file" d.inputFile <;> rw [h1] at h <;>
    simp only [ebind_err, ebind_ok] at h
  case error => cases h
  case ok v1 =>
  cases h2 : getReq "source filter" d.sourceFilter <;> rw [h2] at h <;>
    simp only [ebind_err, ebind_ok] at h
  case error => cases h
  case ok v2 =>
  split at h
  case isTrue => exact absurd h (by simp [ethrow, epure, ebind_ok, ebind_err])
  case isFalse =>
  cases h3 : mkVfmParams (d.vfmParameters.getD {}) <;> rw [h3] at h <;>
    simp only [ebind_err, ebind_ok] at h
  case error => cases h
  case ok v3 =>
  split at h
  case isTrue => exact absurd h (by simp [ethrow, epure, ebind_ok, ebind_err])
  case isFalse =>
  cases h4 : fieldBasedFromParam ((if v3.order then 1 else 0) + 1) <;> rw [h4] at h <;>
    simp only [ebind_err, ebind_ok] at h
  case error => cases h
  case ok v4 =>
  split at h
  case isTrue => exact absurd h (by simp [ethrow, epure, ebind_ok, ebind_err])
  case isFalse =>
  split at h
  case isTrue => exact absurd h (by simp [ethrow, epure, ebind_ok, ebind_err])
  case isFalse hIll =>
  cases h5 : setSections (d.sections.getD [{}]) (d.matchSeq.getD []).length <;>
    rw [h5] at h <;> simp only [ebind_err, ebind_ok] at h
  case error => cases h
  case ok v5 =>
  cases h6 : setInterlacedFades (d.interlacedFades.getD [[]]) <;> rw [h6] at h <;>
    simp only [ebind_err, ebind_ok] at h
  case error => cases h
  case ok v6 =>
  cases h7 : setFreezeFrames (d.frozenFrames.getD []) <;> rw [h7] at h <;>
    simp only [ebind_err, ebind_ok] at h
  case error => cases h
  case ok v7 =>
  cases h8 : setOrphanFrames v5 (d.matchSeq.getD []) <;> rw [h8] at h <;>
    simp only [ebind_err, ebind_ok, epure] at h
  case error => cases h
  case ok v8 =>
  cases h
  refine ⟨v6, rfl, rfl, rfl, rfl, rfl, ?_⟩
  intro hcon
  apply hIll
  have hms : d.matchSeq.getD [] = ([] : List Char) := hcon
  rw [hms]
  rfl

theorem getReq_error (key : String) (o : Option α) (e : WError)
    (h : getReq key o = .error e) : e = .missingValue key := by
  cases o <;> simp [getReq] at h
  exact h.symm

theorem fieldBasedFromParam_error (i : Int) (e : WError)
    (h : fieldBasedFromParam i = .error e) : e = .notFoundEnum := by
  unfold fieldBasedFromParam at h
  split at h <;> simp_all

theorem mkVfmParams_error (p : VfmIn) (e : WError)
    (h : mkVfmParams p = .error e) : e = .notFoundEnum := by
  unfold mkVfmParams at h
  cases ho : p.order <;> rw [ho] at h <;>
    simp only [ebind_err, ebind_ok, epure] at h
  case none => cases h
  case some i =>
    cases hf : fieldBasedFromParam i <;> rw [hf] at h <;>
      simp only [ebind_err, ebind_ok] at h
    case error => cases h; exact fieldBasedFromParam_error i _ hf
    case ok => cases h

theorem mkSection_error (s e2 : Int) (e : WError)
    (h : mkSection s e2 = .error e) : e = .valueError startEndMsg := by
  unfold mkSection at h
  split at h <;> simp_all

theorem setSections_error (data : List SectionRecord) (n : Nat) (e : WError)
    (h : setSections data n = .error e) :
    e = .valueError startEndMsg ∨ e = .typeError "unhashable type: 'Section'" := by
  unfold setSections at h
  split at h
  · cases h
  · rename_i s e2 rest heq
    cases hs : mkSection s e2 <;> rw [hs] at h <;>
      simp only [ebind_err, ebind_ok] at h
    case error => cases h; exact Or.inl (mkSection_error _ _ _ hs)
    case ok => cases h; exact Or.inr rfl

theorem mkInterlacedFade_error (f : Int) (q : ℚ) (e : WError)
    (h : mkInterlacedFade f q = .error e) : e = .valueError frameNumMsg := by
  unfold mkInterlacedFade at h
  split at h <;> simp_all

theorem mkFreezeFrame_error (s e2 r : Int) (e : WError)
    (h : mkFreezeFrame s e2 r = .error e) : e = .valueError startEndMsg := by
  unfold mkFreezeFrame at h
  split at h <;> simp_all

theorem pyIndex_error (l : List Char) (i : Int) (e : WError)
    (h : pyIndex l i = .error e) : e = .indexError i := by
  simp only [pyIndex] at h
  split at h <;> split at h <;> cases h <;> simp

theorem mkOrphanField_error (f : Int) (c : Char) (e : WError)
    (h : mkOrphanField f c = .error e) :
    e = .invalidOrphanMatch c ∨ e = .valueError frameNumMsg := by
  unfold mkOrphanField at h
  split at h
  · cases h; exact Or.inl rfl
  · split at h <;> simp_all

theorem exceptMapList_error (f : α → Except WError β) (e0 : WError)
    (hf : ∀ a e, f a = .error e → e = e0) :
    ∀ (l : List α) (e : WError), exceptMapList f l = .error e → e = e0 := by
  intro l
  induction l with
  | nil => intro e h; simp [exceptMapList] at h
  | cons a rest ih =>
    intro e h
    unfold exceptMapList at h
    cases ha : f a <;> rw [ha] at h <;> simp only [ebind_err, ebind_ok] at h
    case error => cases h; exact hf a _ ha
    case ok b =>
      cases hr : exceptMapList f rest <;> rw [hr] at h <;>
        simp only [ebind_err, ebind_ok, epure] at h
      case error => cases h; exact ih _ hr
      case ok => cases h

theorem setInterlacedFades_error (data : List FadeRecord) (e : WError)
    (h : setInterlacedFades data = .error e) : e = .valueError frameNumMsg := by
  unfold setInterlacedFades at h
  exact exceptMapList_error _ _ (fun r e2 hr => mkInterlacedFade_error _ _ _ hr) data e h

theorem setFreezeFrames_error (data : List (Int × Int × Int)) (e : WError)
    (h : setFreezeFrames data = .error e) : e = .valueError startEndMsg := by
  unfold setFreezeFrames at h
  exact exceptMapList_error _ _ (fun t e2 ht => mkFreezeFrame_error _ _ _ _ ht) data e h

theorem orphanIf_error (f : Int) (tag1 tag2 c : Char) (e : WError)
    (h : orphanIf f tag1 tag2 c = .error e) :
    e = .invalidOrphanMatch tag1 ∨ e = .invalidOrphanMatch tag2
      ∨ e = .valueError frameNumMsg := by
  unfold orphanIf at h
  split at h
  · cases ho : mkOrphanField f tag1 <;> rw [ho] at h <;>
      simp only [emap_ok, emap_err] at h
    · cases h
      rcases mkOrphanField_error _ _ _ ho with h2 | h2
      · exact Or.inl h2
      · exact Or.inr (Or.inr h2)
    · cases h
  · split at h
    · cases ho : mkOrphanField f tag2 <;> rw [ho] at h <;>
        simp only [emap_ok, emap_err] at h
      · cases h
        rcases mkOrphanField_error _ _ _ ho with h2 | h2
        · exact Or.inr (Or.inl h2)
        · exact Or.inr (Or.inr h2)
      · cases h
    · simp [epure] at h

theorem orphansForSection_error (m : List Char) (s : Section) (e : WError)
    (h : orphansForSection m s = .error e) : e ≠ .invalidCycle := by
  unfold orphansForSection at h
  cases hp : pyIndex m s.start_frame <;> rw [hp] at h <;>
    simp only [ebind_err, ebind_ok] at h
  case error =>
    cases h
    rw [pyIndex_error _ _ _ hp]
    intro hcon
    cases hcon
  case ok c1 =>
  cases hb1 : orphanIf s.start_frame 'n' 'p' c1 <;> rw [hb1] at h <;>
    simp only [ebind_err, ebind_ok] at h
  case error =>
    cases h
    rcases orphanIf_error _ _ _ _ _ hb1 with h2 | h2 | h2 <;> subst h2 <;>
      intro hcon <;> cases hcon
  case ok first =>
  cases hp2 : pyIndex m s.end_frame <;> rw [hp2] at h <;>
    simp only [ebind_err, ebind_ok] at h
  case error =>
    cases h
    rw [pyIndex_error _ _ _ hp2]
    intro hcon
    cases hcon
  case ok c2 =>
  cases hb2 : orphanIf s.end_frame 'b' 'u' c2 <;> rw [hb2] at h <;>
    simp only [ebind_err, ebind_ok, epure] at h
  case error =>
    cases h
    rcases orphanIf_error _ _ _ _ _ hb2 with h2 | h2 | h2 <;> subst h2 <;>
      intro hcon <;> cases hcon
  case ok second => cases h

theorem setOrphanFrames_ne_ic (sections : List Section) (m : List Char) :
    setOrphanFrames sections m ≠ .error .invalidCycle := by
  intro h
  unfold setOrphanFrames at h
  cases hm : exceptMapList (orphansForSection m) sections <;> rw [hm] at h <;>
    simp only [emap_ok, emap_err] at h
  case error e =>
    cases h
    revert hm
    induction sections with
    | nil => intro hm; simp [exceptMapList] at hm
    | cons s rest ih =>
      intro hm
      unfold exceptMapList at hm
      cases ha : orphansForSection m s <;> rw [ha] at hm <;>
        simp only [ebind_err, ebind_ok] at hm
      case error =>
        cases hm
        exact orphansForSection_error m s _ ha rfl
      case ok =>
        cases hr : exceptMapList (orphansForSection m) rest <;> rw [hr] at hm <;>
          simp only [ebind_err, ebind_ok, epure] at hm
        case error => cases hm; exact ih hr
        case ok => cases hm
  case ok => cases h

/-- C1.  The claim says a match sequence with a character outside
`{b, c, n, p, u}` fails parsing with `InvalidMatch` and a sequence using
only those tags never does.  The code does the opposite: `wobbly.py:118`
raises on `not bool(len(illegal_chars))`, and the subtracted set holds
`typing.Literal` objects rather than tag characters, so the "illegal" set
is just the distinct characters of the sequence — parsing an otherwise
valid file whose matches are `"ccx"` succeeds, while an *empty* match
sequence is the one input that raises `InvalidMatchError` (naming no
characters at all). -/
theorem c1_invalid_match_check_inverted :
    (parseWobbly wobIllegalMatch).isOk = true
      ∧ (parseWobbly wobBase).isOk = true
      ∧ parseWobbly wobEmptyMatch = .error (.invalidMatch [])
      ∧ illegal_chars ['c', 'c', 'x'] = [.chr 'c', .chr 'x'] :=
  ⟨rfl, rfl, rfl, rfl⟩

/-- C3.  The claim says each `interlaced fades` record parses into an
`InterlacedFade` whose field-difference magnitude is the absolute value of
the record's `field difference` value.  The writer (`Wibbly._get_fades`)
and the documented format use the key `"field difference"`, but the reader
(`__set_interlaced_fades`) looks up `"field_difference"`, so the value is
silently replaced by the `0.0` default: a fade written as
`(frame 3, field difference 1/2)` parses with magnitude `0 ≠ |1/2|`
(the frame number itself is preserved). -/
theorem c3_field_difference_key_dropped :
    (parseWobbly wobFadeHalf).toOption.map (fun w => w.interlaced_fades)
        = some [{ framenum := 3, field_difference := 0 }]
      ∧ |(1 / 2 : ℚ)| ≠ 0 :=
  ⟨rfl, by norm_num⟩

/-- C5.  The claim describes the section-end inference, and the arithmetic
of the comprehension in `__set_sections` does produce the claimed bounds
`[0,9], [10,24], [25,29]` for starts `[0, 10, 25]` over 30 frames — but the
comprehension builds a Python set of `Section` values and `Section`
(`info.py:272`) is a plain `@dataclass` without `unsafe_hash`, hence
unhashable: inserting the first constructed `Section` raises `TypeError`,
so parsing any file with a non-empty section list crashes instead of
producing those ranges. -/
theorem c5_section_inference_crashes :
    sectionBounds [{ start := some 0 }, { start := some 10 }, { start := some 25 }] 30
        = [(0, 9), (10, 24), (25, 29)]
      ∧ setSections [{ start := some 0 }, { start := some 10 }, { start := some 25 }] 30
        = .error (.typeError "unhashable type: 'Section'")
      ∧ parseWobbly wobSections30 = .error (.typeError "unhashable type: 'Section'") :=
  ⟨rfl, rfl, rfl⟩

/-- C8 counterexample.  The claim says that when the own-parity combined
field average (after baseline subtraction) is exactly zero the output
pixel equals the input pixel.  With baseline color `1`, both raw field
averages `1` (so `AVG = 0`), input pixel `0` on row `0`, the expression
yields `1` — the input plus the baseline, not the input. -/
theorem c8_zero_guard_not_identity :
    fifOwnAvg 0 1 1 1 = 0
      ∧ fifPixel .Average 1 0 0 1 1 = some 1
      ∧ (1 : ℚ) ≠ 0 :=
  ⟨by norm_num [fifOwnAvg],
   by rw [fifPixel_eq]; norm_num [fifOwnAvg, fifCombine],
   by norm_num⟩

/-- C8 (amended).  In the interlaced-fade correction, when the own-parity
combined field average after baseline subtraction (`AVG`) is exactly zero,
the output pixel equals the **input pixel plus the baseline** — the
trailing `{color} +` of the expression applies to the guard branch too, so
the guard is a pure passthrough exactly when the baseline is zero (as in
the Wobbly pipeline, which calls the filter with `colors=0`); otherwise the
output equals `(pixel − baseline) · (far_avg / avg) + baseline`, where
`far_avg` is the mode combination (mean/min/max) of the two
baseline-subtracted field averages. -/
theorem c8_fade_expression_amended (mode : FifMode) (color x ft fb : ℚ) (row : ℕ) :
    fifPixel mode color x row ft fb =
      some (if fifOwnAvg row ft fb color = 0 then x + color
            else (x - color) * (fifCombine mode (ft - color) (fb - color)
                    / fifOwnAvg row ft fb color) + color) :=
  fifPixel_eq mode color x ft fb row

/-- C9 counterexample.  The claim says any orphan-handling argument that is
neither a boolean nor a subset of the orphan tags fails with
`TypeMismatch`.  The sequence `['b', 'x']` is not such a subset
(`'x'` is not an orphan tag), yet `__get_orphans_to_process` accepts it —
the `any(...)` test passes as soon as one element is an orphan tag — and
returns the matching orphan fields without error. -/
theorem c9_mixed_sequence_accepted :
    getOrphansToProcess modelWithOrphan (.seq ['b', 'x'])
        = .ok [{ framenum := 0, matchChar := 'b' }]
      ∧ 'x' ∉ orphanTags :=
  ⟨rfl, by decide⟩

/-- C4.  For a project file in the documented shape (required keys present,
a well-formed frame-rate fraction, a valid VFM `order`), `cycle != 5` makes
parsing fail with `InvalidCycle` — and, the parse being a single
`Except` computation, no parsed model is produced; with `cycle == 5` the
`InvalidCycle` error can never be raised (no other code path produces
it). -/
theorem c4_cycle_validation (d : WobData)
    (h1 : d.inputFile.isSome = true)
    (h2 : d.sourceFilter.isSome = true)
    (h3 : (d.inputFrameRate.getD (30000, 1001)).2 ≠ 0)
    (h4 : (mkVfmParams (d.vfmParameters.getD {})).isOk = true) :
    ((mkVDecParams (d.vdecimateParameters.getD {})).cycle ≠ 5 →
        parseWobbly d = .error .invalidCycle)
    ∧ ((mkVDecParams (d.vdecimateParameters.getD {})).cycle = 5 →
        parseWobbly d ≠ .error .invalidCycle) := by
  obtain ⟨a, ha⟩ := Option.isSome_iff_exists.mp h1
  obtain ⟨b, hb⟩ := Option.isSome_iff_exists.mp h2
  obtain ⟨vfm, hvfm⟩ : ∃ v, mkVfmParams (d.vfmParameters.getD {}) = .ok v := by
    cases hmk : mkVfmParams (d.vfmParameters.getD {}) with
    | ok v => exact ⟨v, rfl⟩
    | error e => rw [hmk] at h4; cases h4
  constructor
  · intro hc
    unfold parseWobbly
    rw [ha, hb]
    simp only [getReq, ebind_ok]
    rw [if_neg h3]
    simp only [epure, ebind_ok]
    rw [hvfm]
    simp only [ebind_ok]
    rw [if_pos hc]
    simp [ethrow, ebind_err]
  · intro hc5 h
    unfold parseWobbly at h
    rw [ha, hb] at h
    simp only [getReq, ebind_ok] at h
    rw [if_neg h3] at h
    simp only [epure, ebind_ok] at h
    rw [hvfm] at h
    simp only [ebind_ok] at h
    rw [if_neg (by simp [hc5])] at h
    try simp only [epure, ebind_ok] at h
    cases hfb : fieldBasedFromParam ((if vfm.order then 1 else 0) + 1) <;>
      rw [hfb] at h <;> simp only [ebind_err, ebind_ok] at h
    case error =>
      cases h
      cases fieldBasedFromParam_error _ _ hfb
    case ok v4 =>
    split at h
    case isTrue => simp [ethrow, epure, ebind_ok, ebind_err] at h
    case isFalse =>
    split at h
    case isTrue => simp [ethrow, epure, ebind_ok, ebind_err] at h
    case isFalse =>
    cases h5 : setSections (d.sections.getD [{}]) (d.matchSeq.getD []).length <;>
      rw [h5] at h <;> simp only [ebind_err, ebind_ok] at h
    case error =>
      cases h
      rcases setSections_error _ _ _ h5 with h6 | h6 <;> cases h6
    case ok v5 =>
    cases h6 : setInterlacedFades (d.interlacedFades.getD [[]]) <;> rw [h6] at h <;>
      simp only [ebind_err, ebind_ok] at h
    case error =>
      cases h
      cases setInterlacedFades_error _ _ h6
    case ok v6 =>
    cases h7 : setFreezeFrames (d.frozenFrames.getD []) <;> rw [h7] at h <;>
      simp only [ebind_err, ebind_ok] at h
    case error =>
      cases h
      cases setFreezeFrames_error _ _ h7
    case ok v7 =>
    cases h8 : setOrphanFrames v5 (d.matchSeq.getD []) <;> rw [h8] at h <;>
      simp only [ebind_err, ebind_ok, epure] at h
    case error =>
      cases h
      exact setOrphanFrames_ne_ic v5 _ h8
    case ok v8 => cases h


/-- C6.  After parsing completes, the combed-frame set is disjoint from the
interlaced-fade frame numbers (`__remove_ifades_from_combed` subtracts them
as the last step of `__init__`), while the decimation set is exactly the
file's `decimated frames` list as a set — no fade overlap is removed from
it. -/
theorem c6_fade_precedence (d : WobData) (w : WobblyParsed)
    (h : parseWobbly d = .ok w) :
    w.combed_frames ∩ (w.interlaced_fades.map (fun f => f.framenum)).toFinset = ∅
      ∧ w.decimations = (d.decimatedFrames.getD []).toFinset := by
  obtain ⟨fades, hfades, hif, hcombed, hdec, _, _⟩ := parse_ok_inv d w h
  refine ⟨?_, hdec⟩
  rw [hcombed, hif]
  unfold removeIfadesFromCombed
  split
  · rename_i hemp
    simp [List.isEmpty_iff.mp hemp]
  · exact Finset.sdiff_inter_self _ _

/-- C10.  `InterlacedFade` and `OrphanField` both validate their frame
number at construction (`_HoldsFrameNum.__post_init__`), rejecting
negatives with `CustomValueError`; the parser substitutes `-1` for a
missing `"frame"` key, so a fade record without that key makes
`__set_interlaced_fades` raise the construction error, and the file can
never parse into a model. -/
theorem c10_frame_number_validation :
    (∀ (f : Int) (q : ℚ) (fade : InterlacedFade),
        mkInterlacedFade f q = .ok fade → 0 ≤ fade.framenum)
    ∧ (∀ (f : Int) (c : Char) (o : OrphanField),
        mkOrphanField f c = .ok o → 0 ≤ o.framenum)
    ∧ (∀ (f : Int) (q : ℚ), f < 0 →
        mkInterlacedFade f q = .error (.valueError frameNumMsg))
    ∧ (∀ (recs : List FadeRecord) (r : FadeRecord), r ∈ recs →
        r.lookup "frame" = none →
        setInterlacedFades recs = .error (.valueError frameNumMsg))
    ∧ (∀ (d : WobData) (r : FadeRecord), r ∈ d.interlacedFades.getD [[]] →
        r.lookup "frame" = none →
        ∀ w, parseWobbly d ≠ .ok w) := by
  have hmk : ∀ (f : Int) (q : ℚ), f < 0 →
      mkInterlacedFade f q = .error (.valueError frameNumMsg) := by
    intro f q hf
    rw [mkInterlacedFade, if_pos hf]
  have hset : ∀ (recs : List FadeRecord) (r : FadeRecord), r ∈ recs →
      r.lookup "frame" = none →
      setInterlacedFades recs = .error (.valueError frameNumMsg) := by
    intro recs
    induction recs with
    | nil => intro r hr; cases hr
    | cons a rest ih =>
      intro r hr hnone
      unfold setInterlacedFades exceptMapList
      rcases List.mem_cons.mp hr with rfl | hr2
      · have : FadeRecord.get r "frame" (-1) = -1 := by
          simp [FadeRecord.get, hnone]
        rw [this, show pyTrunc (-1) = -1 from by rw [pyTrunc, if_neg (by norm_num)]; exact_mod_cast (Int.ceil_intCast (-1) : ⌈((-1 : ℤ) : ℚ)⌉ = -1), hmk _ _ (by norm_num)]
        rfl
      · cases ha : mkInterlacedFade (pyTrunc (FadeRecord.get a "frame" (-1)))
            (FadeRecord.get a "field_difference" 0)
        · rw [ebind_err]
          rw [mkInterlacedFade_error _ _ _ ha]
        · rw [ebind_ok]
          have := ih r hr2 hnone
          unfold setInterlacedFades at this
          rw [this, ebind_err]
  refine ⟨?_, ?_, hmk, hset, ?_⟩
  · intro f q fade h
    unfold mkInterlacedFade at h
    split at h
    · cases h
    · cases h
      simp only []
      omega
  · intro f c o h
    unfold mkOrphanField at h
    split at h
    · cases h
    · split at h
      · cases h
      · cases h
        simp only []
        omega
  · intro d r hr hnone w hok
    obtain ⟨fades, hfades, _, _, _, _, _⟩ := parse_ok_inv d w hok
    rw [hset _ r hr hnone] at hfades
    cases hfades

/-! ### Length preservation of the pipeline steps -/

theorem length_setFrameProps (c : List Frame) (kvs : List (String × Int)) :
    (setFrameProps c kvs).length = c.length := by
  simp [setFrameProps]

theorem length_fieldBasedApply (fb : FieldBased) (c : List Frame) :
    (fieldBasedApply fb c).length = c.length := by
  simp [fieldBasedApply, setFrameProps]

theorem length_replaceRanges (a b : List Frame) (f : List Int) :
    (replaceRanges a b f).length = a.length := by
  simp [replaceRanges]

theorem length_applyFieldmatches (ops : ExternalOps) (c : List Frame) (m : List Char) :
    (applyFieldmatches ops c m).length = c.length := by
  simp [applyFieldmatches]

theorem length_markFramerates (w : WobblyParsed) (c : List Frame) :
    (markFramerates w c).length = c.length := by
  simp [markFramerates]

theorem length_applyInterlacedFades (ops : ExternalOps) (c : List Frame)
    (ifades : List InterlacedFade) :
    (applyInterlacedFades ops c ifades).length = c.length := by
  rw [applyInterlacedFades, length_replaceRanges, length_setFrameProps]

theorem length_applyCombedMarkers (c : List Frame) (combed : Finset ℤ) :
    (applyCombedMarkers c combed).length = c.length := by
  rw [applyCombedMarkers, length_replaceRanges, length_setFrameProps]

theorem applyFreezeframes_ok_length (c : List Frame) (fz : List FreezeFrame)
    (out : List Frame) (h : applyFreezeframes c fz = .ok out) :
    out.length = c.length := by
  unfold applyFreezeframes at h
  split at h
  · cases h
  · cases h
    simp

theorem deinterlaceOrphans_ok_length (ops : ExternalOps) (c : List Frame)
    (orphans : List OrphanField) (out : List Frame)
    (h : deinterlaceOrphans ops c orphans = .ok out) : out.length = c.length := by
  unfold deinterlaceOrphans at h
  split at h
  · cases h
  · cases h
    rw [length_replaceRanges, length_replaceRanges, length_replaceRanges]

/-! ### `std.DeleteFrames` counting -/

theorem deleteFramesFrom_empty (clip : List Frame) :
    ∀ k : ℕ, deleteFramesFrom clip ∅ k = clip := by
  induction clip with
  | nil => intro k; rfl
  | cons fr rest ih =>
    intro k
    unfold deleteFramesFrom
    rw [if_neg (by simp)]
    rw [ih]

theorem deleteFrames_empty (clip : List Frame) : deleteFrames clip ∅ = clip :=
  deleteFramesFrom_empty clip 0

theorem deleteFramesFrom_length (D : Finset ℤ) :
    ∀ (clip : List Frame) (k : ℕ),
      (deleteFramesFrom clip D k).length
        + (D ∩ Finset.Ico (k : ℤ) ((k : ℤ) + clip.length)).card = clip.length := by
  intro clip
  induction clip with
  | nil =>
    intro k
    simp [deleteFramesFrom]
  | cons fr rest ih =>
    intro k
    have hico : Finset.Ico (k : ℤ) ((k : ℤ) + (fr :: rest).length)
        = insert (k : ℤ) (Finset.Ico ((k + 1 : ℕ) : ℤ) (((k + 1 : ℕ) : ℤ) + rest.length)) := by
      ext x
      simp only [Finset.mem_Ico, Finset.mem_insert, List.length_cons]
      push_cast
      omega
    have hnotmem : (k : ℤ) ∉ D ∩ Finset.Ico ((k + 1 : ℕ) : ℤ) (((k + 1 : ℕ) : ℤ) + rest.length) := by
      simp only [Finset.mem_inter, Finset.mem_Ico]
      push_cast
      omega
    unfold deleteFramesFrom
    by_cases hk : (k : ℤ) ∈ D
    · rw [if_pos hk, hico]
      rw [Finset.inter_comm, Finset.insert_inter_of_mem hk, Finset.inter_comm]
      rw [Finset.card_insert_of_not_mem hnotmem]
      have := ih (k + 1)
      simp only [List.length_cons]
      omega
    · rw [if_neg hk, hico]
      rw [Finset.inter_comm, Finset.insert_inter_of_not_mem hk, Finset.inter_comm]
      have := ih (k + 1)
      simp only [List.length_cons, List.length]
      omega

theorem deleteFrames_length (clip : List Frame) (D : Finset ℤ)
    (hD : ∀ i ∈ D, 0 ≤ i ∧ i < (clip.length : ℤ)) :
    (deleteFrames clip D).length = clip.length - D.card := by
  have h := deleteFramesFrom_length D clip 0
  have hsub : D ∩ Finset.Ico ((0 : ℕ) : ℤ) (((0 : ℕ) : ℤ) + clip.length) = D := by
    apply Finset.inter_eq_left.mpr
    intro i hi
    simp only [Finset.mem_Ico]
    have := hD i hi
    push_cast
    omega
  rw [hsub] at h
  unfold deleteFrames
  omega

/-- C9 (amended).  `__get_orphans_to_process` raises `TypeMismatch` exactly
for a truthy non-boolean sequence containing *no* orphan tag; a boolean, a
falsy argument (including the empty sequence), and any sequence containing
at least one orphan tag — even alongside unrecognised elements — are
accepted without that error. -/
theorem c9_orphan_arg_check_amended (w : WobblyParsed) (arg : OrphanArg) :
    getOrphansToProcess w arg = .error .typeMismatch ↔
      (match arg with
       | .bool _ => False
       | .seq l => l ≠ [] ∧ ∀ m ∈ l, m ∉ orphanTags) := by
  cases arg with
  | bool b => cases b <;> simp [getOrphansToProcess]
  | seq l =>
    simp only [getOrphansToProcess]
    by_cases hemp : l.isEmpty
    · rw [if_pos hemp]
      simp [List.isEmpty_iff.mp hemp]
    · rw [if_neg hemp]
      have hne : l ≠ [] := by
        intro hcon
        exact hemp (by simp [hcon])
      by_cases hany : l.any (fun m => m ∈ orphanTags)
      · rw [if_pos hany]
        obtain ⟨m, hm, hmem⟩ := List.any_eq_true.mp hany
        constructor
        · intro hcon
          cases hcon
        · intro hcon
          exact absurd (of_decide_eq_true hmem) (hcon.2 m hm)
      · rw [if_neg hany]
        have hall : ∀ m ∈ l, m ∉ orphanTags := by
          intro m hm hmem
          exact hany (List.any_eq_true.mpr ⟨m, hm, decide_eq_true hmem⟩)
        exact ⟨fun _ => ⟨hne, hall⟩, fun _ => rfl⟩

/-- Witness for C4: `cycle = 4` fails with `InvalidCycle`; the default
`cycle = 5` file does not. -/
theorem c4_cycle_validation_witness :
    parseWobbly wobCycle4 = .error .invalidCycle
      ∧ parseWobbly wobBase ≠ .error .invalidCycle :=
  ⟨(c4_cycle_validation wobCycle4 (by rfl) (by rfl) (by decide) (by rfl)).1 (by decide),
   (c4_cycle_validation wobBase (by rfl) (by rfl) (by decide) (by rfl)).2 (by rfl)⟩

/-- Witness for C6: parsing the overlapping file leaves the combed set
disjoint from the fade frames while the decimation set keeps the
overlapping frame 0. -/
theorem c6_fade_precedence_witness :
    parsedOverlap.combed_frames
        ∩ (parsedOverlap.interlaced_fades.map (fun f => f.framenum)).toFinset = ∅
      ∧ parsedOverlap.decimations = (wobOverlap.decimatedFrames.getD []).toFinset :=
  c6_fade_precedence wobOverlap parsedOverlap (by rfl)

/-- Witness for C10 at concrete inputs. -/
theorem c10_frame_number_validation_witness :
    0 ≤ fadeWit.framenum
      ∧ 0 ≤ orphanWit.framenum
      ∧ mkInterlacedFade (-1) 0 = .error (.valueError frameNumMsg)
      ∧ setInterlacedFades [[]] = .error (.valueError frameNumMsg)
      ∧ parseWobbly wobMissingFrame ≠ .ok dummyParsed :=
  ⟨c10_frame_number_validation.1 3 1 fadeWit (by rfl),
   c10_frame_number_validation.2.1 2 'b' orphanWit (by rfl),
   c10_frame_number_validation.2.2.1 (-1) 0 (by norm_num),
   c10_frame_number_validation.2.2.2.1 [[]] [] (List.Mem.head _) (by rfl),
   c10_frame_number_validation.2.2.2.2 wobMissingFrame [] (List.Mem.head _) (by rfl) dummyParsed⟩

/-! ### The broken step lookups of `apply` -/

theorem pySet_length (l : List Char) (i : Int) (c : Char) (out : List Char)
    (h : pySet l i c = .ok out) : out.length = l.length := by
  simp only [pySet] at h
  split at h <;> split at h <;> cases h <;> simp

theorem forceCMatch_length (orphans : List OrphanField) :
    ∀ (ms out : List Char), forceCMatch ms orphans = .ok out → out.length = ms.length := by
  induction orphans with
  | nil =>
    intro ms out h
    cases h
    rfl
  | cons o rest ih =>
    intro ms out h
    unfold forceCMatch at h
    cases hs : pySet ms o.framenum 'c' <;> rw [hs] at h <;>
      simp only [ebind_err, ebind_ok] at h
    case error => cases h
    case ok m =>
      rw [ih m out h, pySet_length ms o.framenum 'c' m hs]

/-- `apply` can never return a clip for a parsed model: every file the
parser accepts has a non-empty match sequence (the inverted check of
`wobbly.py:118` raises precisely on the empty one), so the truthy
`matches_to_proc` walrus guard always takes line 168, whose name-mangled
`self.__apply_fieldmatches` lookup raises `AttributeError`. -/
theorem parsed_apply_never_ok (ops : ExternalOps) (d : WobData) (w : WobblyParsed)
    (clip : List Frame) (tff : Option FieldBased) (arg : OrphanArg) (out : List Frame)
    (hp : parseWobbly d = .ok w) :
    applyW ops w clip tff arg ≠ .ok out := by
  obtain ⟨fades, _, _, _, _, _, hne⟩ := parse_ok_inv d w hp
  intro happ
  unfold applyW at happ
  cases h1 : getOrphansToProcess w arg <;> rw [h1] at happ <;>
    simp only [ebind_err, ebind_ok] at happ
  case error => cases happ
  case ok orphanProc =>
  cases h2 : forceCMatch w.matchSeq orphanProc <;> rw [h2] at happ <;>
    simp only [ebind_err, ebind_ok] at happ
  case error => cases happ
  case ok mts =>
  have hlen := forceCMatch_length orphanProc w.matchSeq mts h2
  have hmts : mts.isEmpty = false := by
    cases hm : mts with
    | nil =>
      rw [hm] at hlen
      exact absurd (List.length_eq_zero.mp hlen.symm) hne
    | cons a l => rfl
  rw [show mangledStep "_WobblyParsed__apply_fieldmatches" (!mts.isEmpty)
        (fieldBasedApply (tff.getD w.field_order) clip)
      = .error (.attributeError "_WobblyParsed__apply_fieldmatches") from by
    rw [mangledStep, if_pos (by rw [hmts]; rfl)]] at happ
  simp only [ebind_err] at happ
  cases happ

/-- C2.  The claim says `apply` on an `N`-frame clip returns a clip of
`N - |D|` frames.  `apply` never returns a clip at all: `wobbly.py:168`
reads `self.__apply_fieldmatches`, which inside `class WobblyParsed`
name-mangles to `_WobblyParsed__apply_fieldmatches` — an attribute that
does not exist (the base class defines `_apply_fieldmatches`) — and since
every parsed model has a non-empty match sequence the guarded statement
always executes, so `apply` raises `AttributeError` before any frame
processing.  Evaluated here on the parsed model of a file with matches
`"ccc"` and decimation set `{1}` over a three-frame clip. -/
theorem c2_apply_attribute_error :
    parseWobbly wobDecimate1 = .ok parsedDecimate1
      ∧ parsedDecimate1.matchSeq = ['c', 'c', 'c']
      ∧ applyW trivialOps parsedDecimate1 clip3 none (.bool false)
          = .error (.attributeError "_WobblyParsed__apply_fieldmatches") :=
  ⟨rfl, rfl, rfl⟩

/-- C7.  The claim says decimation is the bulk second-to-last step of
`apply`.  Execution never reaches the `DeleteFrames` line
(`wobbly.py:186`): the first guarded step already raises `AttributeError`
through its name-mangled `self.__apply_fieldmatches` lookup (see
`mangledStep`), so no frame of the decimation set is ever dropped.
Evaluated on the parsed model of a file with a non-empty decimation set:
both `apply` and its pre-decimation prefix stop with that error. -/
theorem c7_decimation_never_reached :
    parseWobbly wobOverlap = .ok parsedOverlap
      ∧ parsedOverlap.decimations ≠ ∅
      ∧ applyW trivialOps parsedOverlap clip3 none (.bool false)
          = .error (.attributeError "_WobblyParsed__apply_fieldmatches")
      ∧ preDecimationSteps trivialOps parsedOverlap clip3 none (.bool false)
          = .error (.attributeError "_WobblyParsed__apply_fieldmatches") :=
  ⟨rfl, by decide, rfl, rfl⟩

end VSD
